import Mathlib

/-!
Shallow embedding of the authentication / error-classification / rate-limiting
core of the wp-mcp repository:
  - `src/types.ts` (error taxonomy, configuration shapes),
  - `src/auth/authentication-manager.ts` (`WordPressAuthenticationManager`),
  - `src/auth/http-client.ts` (`RateLimiter`, `WordPressHttpClient`).
Pure functions are translated directly; the stateful pieces (the rate limiter
timestamp list, the authentication state, the client retry counter) are modelled
by explicit state passing.  JavaScript numbers holding millisecond timestamps
are modelled as `Int` (all the code does with them is compare and subtract);
HTTP statuses as `Option Nat` (`error.response?.status` may be `undefined`).
-/

deriving instance DecidableEq for Except

namespace WpMcp

/-- `AuthErrorType` enum from `src/types.ts`.  Note the enum has an
`INVALID_URL` member and no `NOT_FOUND` member. -/
inductive AuthErrorType where
  | INVALID_CREDENTIALS
  | UNAUTHORIZED
  | FORBIDDEN
  | NETWORK_ERROR
  | TIMEOUT
  | INVALID_URL
  | SSL_ERROR
  | RATE_LIMITED
  | UNKNOWN_ERROR
  deriving DecidableEq, Repr

/-- `WordPressAuthError` from `src/types.ts`: classification, message and
optional HTTP status.  The `originalError` field (the raw caught exception
object) carries no information the claims are about and is not modelled. -/
structure WordPressAuthError where
  type : AuthErrorType
  message : String
  httpStatus : Option Nat
  deriving DecidableEq, Repr

/-- `WordPressConfig` from `src/types.ts` (the fields the authentication /
HTTP-client core reads; the optional `rate_limit` policy is modelled separately
as `RateLimitConfig`). -/
structure WordPressConfig where
  site_url : String
  username : String
  app_password : String
  verify_ssl : Bool
  timeout : Int
  deriving DecidableEq, Repr

/-- Result of parsing a URL string with Node's WHATWG `new URL(...)` (an
external library call): only the fields the source inspects.  `none` stands
for the parser throwing (not an absolute URL). -/
structure Url where
  protocol : String
  hostname : String
  deriving DecidableEq, Repr

/-- `SecurityValidationResult` from `src/types.ts`. -/
structure SecurityValidationResult where
  isSecure : Bool
  issues : List String
  warnings : List String
  deriving DecidableEq, Repr

/-! ### Rate limiter (`class RateLimiter`, `src/auth/http-client.ts`) -/

/-- `RateLimitConfig`: the limit and the window width in milliseconds (the
client always instantiates the limiter with `window_ms = 60000`). -/
structure RateLimitConfig where
  requests_per_minute : Nat
  window_ms : Int
  deriving DecidableEq, Repr

/-- JavaScript `Math.ceil(a / b)` for integer `a` and positive integer `b`:
`Int.ediv` rounds toward negative infinity for a positive divisor, so negating
twice gives the ceiling. -/
def mathCeil (a b : Int) : Int := -(Int.ediv (-a) b)

/-- `RateLimiter.checkLimit`.  The mutable field `this.requests` is passed in
and returned explicitly; in the source the pruning assignment to the field
happens before the throw, so on rejection the pruned list persists.  Returns
the admission decision together with the updated timestamp list. -/
def checkLimit (config : RateLimitConfig) (requests : List Int) (now : Int) :
    Except WordPressAuthError Unit × List Int :=
  let windowStart := now - config.window_ms
  let pruned := requests.filter fun time => decide (windowStart < time)
  if config.requests_per_minute ≤ pruned.length then
    let oldestRequest := pruned.headD 0
    let waitTime := config.window_ms - (now - oldestRequest)
    (.error { type := .RATE_LIMITED,
              message := "Rate limit exceeded. Please wait " ++
                  toString (mathCeil waitTime 1000) ++ " seconds.",
              httpStatus := none },
     pruned)
  else
    (.ok (), pruned ++ [now])

/-- Folds `checkLimit` over a list of check times, starting from stored state
`state`; returns the final stored list and whether every check was admitted. -/
def runChecks (config : RateLimitConfig) (state : List Int) :
    List Int → List Int × Bool
  | [] => (state, true)
  | t :: ts =>
    let step := checkLimit config state t
    let rest := runChecks config step.2 ts
    (rest.1, (match step.1 with | .ok _ => true | .error _ => false) && rest.2)

/-! ### Authentication manager (`src/auth/authentication-manager.ts`) -/

/-- JavaScript regex `\s` character class (whitespace), used by
`password.replace(/\s/g, '')`. -/
def isJsWhitespace (c : Char) : Bool :=
  c = ' ' || c = '\t' || c = '\n' || c = '\r' ||
  c = Char.ofNat 0x0b || c = Char.ofNat 0x0c ||
  c = Char.ofNat 0xa0 || c = Char.ofNat 0x1680 ||
  (0x2000 ≤ c.toNat && c.toNat ≤ 0x200a) ||
  c = Char.ofNat 0x2028 || c = Char.ofNat 0x2029 || c = Char.ofNat 0x202f ||
  c = Char.ofNat 0x205f || c = Char.ofNat 0x3000 || c = Char.ofNat 0xfeff

/-- JavaScript regex character class `[a-zA-Z0-9]` (`Char.isAlpha` and
`Char.isDigit` are exactly the ASCII ranges). -/
def isAsciiAlphanumeric (c : Char) : Bool := c.isAlpha || c.isDigit

/-- `WordPressAuthenticationManager.isValidApplicationPassword`: strip
whitespace, then require length 24 and a full match of `/^[a-zA-Z0-9]+$/`
(nonempty and every character alphanumeric). -/
def isValidApplicationPassword (password : String) : Bool :=
  let cleanPassword := password.toList.filter fun c => !(isJsWhitespace c)
  cleanPassword.length == 24 &&
    (!cleanPassword.isEmpty && cleanPassword.all isAsciiAlphanumeric)

/-- `WordPressAuthenticationManager.validateSecurity`.  `parsedUrl` stands for
the result of `new URL(config.site_url)`; when the parser throws (`none`), the
`catch` block records the single issue and no warnings (the throw happens
before any warning is pushed). -/
def validateSecurity (config : WordPressConfig) (parsedUrl : Option Url) :
    SecurityValidationResult :=
  match parsedUrl with
  | none => { isSecure := false, issues := ["Invalid site URL format"], warnings := [] }
  | some url =>
    let issues := if url.protocol = "https:" then [] else ["Site URL must use HTTPS"]
    let warnings :=
      (if url.hostname = "localhost" || url.hostname = "127.0.0.1" then
        ["Using localhost - ensure this is for development only"] else []) ++
      (if config.verify_ssl = false then
        ["SSL verification is disabled - this reduces security"] else []) ++
      (if 60000 < config.timeout then
        ["Timeout is set very high - consider reducing for better user experience"] else [])
    { isSecure := issues.length == 0, issues := issues, warnings := warnings }

/-- Message of the `TypeError` Node throws from `new URL` on a non-absolute
URL string (external library behaviour; the source interpolates
`error.message`). -/
def nodeInvalidUrlMessage : String := "Invalid URL"

/-- `WordPressAuthenticationManager.validateConfiguration`, run by the
constructor: security validation first (throws `INVALID_URL` listing the
issues), then the URL format block — whose own non-HTTPS throw is caught by
its `catch` and rewrapped, though that path is unreachable because
`validateSecurity` already failed — then the application-password format
check (throws `INVALID_CREDENTIALS`). -/
def validateConfiguration (config : WordPressConfig) (parsedUrl : Option Url) :
    Except WordPressAuthError Unit :=
  let validation := validateSecurity config parsedUrl
  if validation.isSecure = false then
    .error { type := .INVALID_URL,
             message := "Security validation failed: " ++
                 String.intercalate ", " validation.issues,
             httpStatus := none }
  else
    match parsedUrl with
    | none =>
      .error { type := .INVALID_URL,
               message := "Invalid WordPress site URL: " ++ nodeInvalidUrlMessage,
               httpStatus := none }
    | some url =>
      if url.protocol ≠ "https:" then
        .error { type := .INVALID_URL,
                 message := "Invalid WordPress site URL: WordPress site URL must use HTTPS for security",
                 httpStatus := none }
      else if !(isValidApplicationPassword config.app_password) then
        .error { type := .INVALID_CREDENTIALS,
                 message := "Application password format is invalid. Should be in format: xxxx xxxx xxxx xxxx xxxx xxxx",
                 httpStatus := none }
      else
        .ok ()

/-- The alphabet used by Node's `Buffer.toString('base64')`. -/
def base64Alphabet : List Char :=
  "ABCDEFGHIJKLMNOPQRSTUVWXYZabcdefghijklmnopqrstuvwxyz0123456789+/".toList

/-- Character for a 6-bit group. -/
def sextetChar (n : Nat) : Char := base64Alphabet.getD n 'A'

/-- Standard base64 of a byte list (Node `Buffer.from(s).toString('base64')`). -/
def base64EncodeBytes : List Nat → List Char
  | [] => []
  | [b1] =>
    [sextetChar (b1 / 4), sextetChar (b1 % 4 * 16), '=', '=']
  | [b1, b2] =>
    [sextetChar (b1 / 4), sextetChar (b1 % 4 * 16 + b2 / 16), sextetChar (b2 % 16 * 4), '=']
  | b1 :: b2 :: b3 :: rest =>
    sextetChar (b1 / 4) :: sextetChar (b1 % 4 * 16 + b2 / 16) ::
      sextetChar (b2 % 16 * 4 + b3 / 64) :: sextetChar (b3 % 64) ::
      base64EncodeBytes rest

/-- UTF-8 encoding of one code point. -/
def charUtf8 (c : Char) : List Nat :=
  let n := c.toNat
  if n < 0x80 then [n]
  else if n < 0x800 then [0xC0 + n / 0x40, 0x80 + n % 0x40]
  else if n < 0x10000 then
    [0xE0 + n / 0x1000, 0x80 + n / 0x40 % 0x40, 0x80 + n % 0x40]
  else
    [0xF0 + n / 0x40000, 0x80 + n / 0x1000 % 0x40, 0x80 + n / 0x40 % 0x40,
     0x80 + n % 0x40]

/-- Base64 of the UTF-8 bytes of a string. -/
def base64Encode (s : String) : String :=
  ⟨base64EncodeBytes (s.toList.foldr (fun c acc => charUtf8 c ++ acc) [])⟩

/-- `WordPressAuthenticationManager.generateAuthHeader`. -/
def generateAuthHeader (config : WordPressConfig) : String :=
  "Basic " ++ base64Encode (config.username ++ ":" ++ config.app_password)

/-- `AuthState` from `src/types.ts`: flag, last-verified timestamp, stored
credentials (username and the base64-encoded password part of the header). -/
structure AuthState where
  isAuthenticated : Bool
  lastVerified : Option Int
  credentials : Option (String × String)
  deriving DecidableEq, Repr

/-- Mutable fields of `WordPressAuthenticationManager` besides the config:
`authState` and `lastAuthCheck`. -/
structure AuthManagerState where
  authState : AuthState
  lastAuthCheck : Option Int
  deriving DecidableEq, Repr

/-- `AUTH_CACHE_DURATION = 5 * 60 * 1000` milliseconds. -/
def AUTH_CACHE_DURATION : Int := 5 * 60 * 1000

/-- `WordPressAuthenticationManager.authenticate` at time `now`: purely local
credential setup (the `catch` branch guards only pure string operations and is
unreachable), storing the encoded header with the `Basic ` prefix stripped. -/
def authenticate (config : WordPressConfig) (now : Int) : AuthManagerState :=
  { authState :=
      { isAuthenticated := true,
        lastVerified := some now,
        credentials := some (config.username,
          base64Encode (config.username ++ ":" ++ config.app_password)) },
    lastAuthCheck := some now }

/-- `WordPressAuthenticationManager.isAuthenticated` evaluated at time `now`. -/
def isAuthenticated (s : AuthManagerState) (now : Int) : Bool :=
  if s.authState.isAuthenticated = false then false
  else if (match s.lastAuthCheck with
           | some t => decide (now - t < AUTH_CACHE_DURATION)
           | none => false) then true
  else s.authState.isAuthenticated

/-- `WordPressAuthenticationManager.invalidateAuth`. -/
def invalidateAuth (_s : AuthManagerState) : AuthManagerState :=
  { authState := { isAuthenticated := false, lastVerified := none, credentials := none },
    lastAuthCheck := none }

/-- Lower-case a character list (the `i` regex flag compares case-folded). -/
def toLowerList (cs : List Char) : List Char := cs.map Char.toLower

/-- `message.replace(new RegExp(pat, 'gi'), rep)` for a *literal* pattern:
left-to-right, non-overlapping, case-insensitive replacement of every
occurrence.  Faithful to the source when the configured username / password
contain no regex metacharacters (they are alphanumeric credentials); the
source would also misbehave on an empty pattern, which the configuration
schema rules out (`min(1)`), so an empty pattern is left untouched here. -/
def replaceCIgo (p : Char) (ps rep : List Char) : Nat → List Char → List Char
  | _, [] => []
  | 0, s => s
  | fuel + 1, c :: rest =>
    if toLowerList ((c :: rest).take (p :: ps).length) == toLowerList (p :: ps) then
      rep ++ replaceCIgo p ps rep fuel ((c :: rest).drop (p :: ps).length)
    else
      c :: replaceCIgo p ps rep fuel rest

/-- Entry point of the replacement.  The fuel (the input length) makes the
recursion structural; every step consumes at least one character and one unit
of fuel, so the fuel never runs out.  An empty pattern cannot arise from a
valid configuration (the schema requires nonempty username / password). -/
def replaceCI (pat rep s : List Char) : List Char :=
  match pat with
  | [] => s
  | p :: ps => replaceCIgo p ps rep s.length s

/-- Character class `[A-Za-z0-9+\/=]` from the `Basic` credential regex. -/
def isBase64TokenChar (c : Char) : Bool :=
  c.isAlpha || c.isDigit || c = '+' || c = '/' || c = '='

/-- `message.replace(/Basic\s+[A-Za-z0-9+\/=]+/gi, 'Basic [CREDENTIALS]')`:
scan left to right; at each position try to match `basic` case-insensitively,
then at least one whitespace character, then at least one base64 character
(both greedily — backtracking cannot help since the classes are disjoint);
on a match emit the replacement and continue after the match, otherwise keep
the character and move one position right. -/
def replaceBasicTokenGo : Nat → List Char → List Char
  | _, [] => []
  | 0, s => s
  | fuel + 1, c :: rest =>
    let l := c :: rest
    if toLowerList (l.take 5) == "basic".toList then
      let ws := (l.drop 5).takeWhile isJsWhitespace
      let tok := ((l.drop 5).drop ws.length).takeWhile isBase64TokenChar
      if ws.length == 0 || tok.length == 0 then
        c :: replaceBasicTokenGo fuel rest
      else
        "Basic [CREDENTIALS]".toList ++
          replaceBasicTokenGo fuel (((l.drop 5).drop ws.length).drop tok.length)
    else
      c :: replaceBasicTokenGo fuel rest

/-- Entry point of the `Basic <token>` replacement (fuel as in `replaceCI`). -/
def replaceBasicToken (s : List Char) : List Char :=
  replaceBasicTokenGo s.length s

/-- `WordPressAuthenticationManager.sanitizeErrorMessage`: replace the
configured username, then the configured password, then any
`Basic <token>` pattern, each case-insensitively. -/
def sanitizeErrorMessage (config : WordPressConfig) (message : String) : String :=
  let m1 := replaceCI config.username.toList "[USERNAME]".toList message.toList
  let m2 := replaceCI config.app_password.toList "[PASSWORD]".toList m1
  ⟨replaceBasicToken m2⟩

/-! ### HTTP client response handling (`WordPressHttpClient`,
`src/auth/http-client.ts`) -/

/-- The parts of an axios rejection the response interceptor reads:
`error.response?.status`, `error.code`, `error.response?.data?.message`, and
`error.message` (used only by the final sanitising fallthrough). -/
structure ResponseErrorInput where
  status : Option Nat
  code : Option String
  dataMessage : Option String
  errorMessage : String
  deriving DecidableEq, Repr

/-- JavaScript `m || d` for an optional string: `undefined` and the empty
string are falsy. -/
def orDefault (m : Option String) (d : String) : String :=
  match m with
  | some s => if s = "" then d else s
  | none => d

/-- Truthiness of `error.response?.status` (`undefined` and `0` are falsy). -/
def statusTruthy (st : Option Nat) : Bool :=
  match st with
  | some s => s != 0
  | none => false

/-- ASCII apostrophe, kept out of string literals. -/
def apos : String := (Char.ofNat 39).toString

/-- `handleResponseError` for a non-401 rejection (the 401 branch is the retry
logic, modelled in `processResponses`): the branch cascade for 403, 429,
timeout codes, SSL codes, status ≥ 500, status ≥ 400, and the sanitising
fallthrough, in source order. -/
def classifyNon401 (e : ResponseErrorInput) (config : WordPressConfig) :
    WordPressAuthError :=
  if e.status = some 403 then
    { type := .FORBIDDEN,
      message := orDefault e.dataMessage "Access forbidden. Check user permissions.",
      httpStatus := some 403 }
  else if e.status = some 429 then
    { type := .RATE_LIMITED,
      message := "Rate limit exceeded by WordPress server",
      httpStatus := some 429 }
  else if e.code = some "ECONNABORTED" || e.code = some "ETIMEDOUT" then
    { type := .TIMEOUT, message := "Request timed out", httpStatus := none }
  else if e.code = some "CERT_HAS_EXPIRED" ||
      e.code = some "UNABLE_TO_VERIFY_LEAF_SIGNATURE" then
    { type := .SSL_ERROR,
      message := "SSL certificate error. Check your WordPress site" ++ apos ++
          "s SSL configuration.",
      httpStatus := none }
  else if statusTruthy e.status && 500 ≤ e.status.getD 0 then
    { type := .NETWORK_ERROR,
      message := "WordPress server error (" ++ toString (e.status.getD 0) ++ "): " ++
          orDefault e.dataMessage "Internal server error",
      httpStatus := e.status }
  else if statusTruthy e.status && 400 ≤ e.status.getD 0 then
    { type := .UNKNOWN_ERROR,
      message := "WordPress API error (" ++ toString (e.status.getD 0) ++ "): " ++
          orDefault e.dataMessage "Bad request",
      httpStatus := e.status }
  else
    { type := .UNKNOWN_ERROR,
      message := sanitizeErrorMessage config e.errorMessage,
      httpStatus := e.status }

/-- One scripted outcome of submitting the request to the server: axios
resolves with a 2xx status, or rejects with the given error shape. -/
inductive ScriptedResponse where
  | success (status : Nat)
  | failure (e : ResponseErrorInput)
  deriving DecidableEq, Repr

/-- Whether a scripted outcome is a success. -/
def isSuccessResp : ScriptedResponse → Bool
  | .success _ => true
  | .failure _ => false

/-- Per-client mutable state the interceptors touch: the `retryCount` field
and the authentication manager state. -/
structure ClientState where
  retryCount : Nat
  auth : AuthManagerState
  deriving DecidableEq, Repr

/-- Placeholder for the model-only case of an exhausted response script (a
real request always settles with some outcome; theorems use scripts long
enough never to reach it). -/
def scriptExhausted : WordPressAuthError :=
  { type := .UNKNOWN_ERROR, message := "model: script exhausted", httpStatus := none }

/-- One request through the interceptor pair, driven by the scripted outcomes
of its successive (re)submissions.  On success the response interceptor resets
`retryCount`.  On a 401 the handler invalidates auth and, when
`retryCount < 1`, increments it, re-authenticates (which in the source cannot
throw, so the `INVALID_CREDENTIALS` wrap there is dead code) and resubmits;
otherwise it surfaces `UNAUTHORIZED`.  Any other rejection is classified by
`classifyNon401`.  `retries` counts resubmissions performed; the result is
(outcome, final client state, final retries counter). -/
def processResponses (config : WordPressConfig) (now : Int) :
    ClientState → Nat → List ScriptedResponse →
    Except WordPressAuthError Nat × ClientState × Nat
  | st, retries, [] => (.error scriptExhausted, st, retries)
  | st, retries, .success s :: _ =>
    (.ok s, { st with retryCount := 0 }, retries)
  | st, retries, .failure e :: rest =>
    if e.status = some 401 then
      let st1 : ClientState := { st with auth := invalidateAuth st.auth }
      if st1.retryCount < 1 then
        processResponses config now
          { st1 with retryCount := st1.retryCount + 1, auth := authenticate config now }
          (retries + 1) rest
      else
        (.error { type := .UNAUTHORIZED,
                  message := "Invalid credentials or expired authentication",
                  httpStatus := some 401 },
         st1, retries)
    else
      (.error (classifyNon401 e config), st, retries)

/-- A sequence of independent requests through one client: each request is
processed with the client state left by the previous one (`retryCount` is a
per-client field, reset only by a successful response). -/
def runRequests (config : WordPressConfig) (now : Int) :
    ClientState → Nat → List (List ScriptedResponse) →
    List (Except WordPressAuthError Nat) × ClientState × Nat
  | st, retries, [] => ([], st, retries)
  | st, retries, script :: more =>
    let r1 := processResponses config now st retries script
    let r2 := runRequests config now r1.2.1 r1.2.2 more
    (r1.1 :: r2.1, r2.2)

/-! ### Concrete fixtures used by counterexamples and witnesses -/

/-- A well-formed configuration: HTTPS site, nonempty username, 24-character
alphanumeric application password. -/
def cfgW : WordPressConfig :=
  { site_url := "https://example.com", username := "admin",
    app_password := "abcdABCD1234abcdABCD1234", verify_ssl := true, timeout := 30000 }

/-- A 403 rejection whose WordPress-provided message contains the configured
password of `cfgW` verbatim. -/
def leak403 : ResponseErrorInput :=
  { status := some 403, code := none,
    dataMessage := some "User admin: password abcdABCD1234abcdABCD1234 rejected",
    errorMessage := "" }

/-- A plain 404 rejection. -/
def resp404 : ResponseErrorInput :=
  { status := some 404, code := none, dataMessage := some "Not Found", errorMessage := "" }

/-- An unrelated 4xx rejection, for comparing classifications. -/
def resp418 : ResponseErrorInput :=
  { status := some 418, code := none, dataMessage := some "Teapot", errorMessage := "" }

/-- A 401 rejection. -/
def resp401 : ResponseErrorInput :=
  { status := some 401, code := none, dataMessage := none, errorMessage := "Unauthorized" }

/-- A 429 rejection. -/
def resp429 : ResponseErrorInput :=
  { status := some 429, code := none, dataMessage := none, errorMessage := "" }

/-! ## Helper lemmas -/

/-- When every stored timestamp is inside the window, pruning keeps the list. -/
theorem checkLimit_filter_self (config : RateLimitConfig) (reqs : List Int) (now : Int)
    (hkeep : ∀ y ∈ reqs, now - config.window_ms < y) :
    (reqs.filter fun time => decide (now - config.window_ms < time)) = reqs :=
  List.filter_eq_self.mpr fun y hy => decide_eq_true (hkeep y hy)

/-- `checkLimit` admits when nothing is pruned and the list is under the limit. -/
theorem checkLimit_admit (config : RateLimitConfig) (reqs : List Int) (now : Int)
    (hkeep : ∀ y ∈ reqs, now - config.window_ms < y)
    (hlen : reqs.length < config.requests_per_minute) :
    checkLimit config reqs now = (.ok (), reqs ++ [now]) := by
  simp only [checkLimit]
  rw [checkLimit_filter_self config reqs now hkeep, if_neg (by omega)]

/-- `checkLimit` rejects when nothing is pruned and the list is at the limit,
with the wait-time message computed from the oldest stored timestamp. -/
theorem checkLimit_reject (config : RateLimitConfig) (reqs : List Int) (now : Int)
    (hkeep : ∀ y ∈ reqs, now - config.window_ms < y)
    (hlen : config.requests_per_minute ≤ reqs.length) :
    checkLimit config reqs now =
      (.error { type := .RATE_LIMITED,
                message := "Rate limit exceeded. Please wait " ++
                    toString (mathCeil (config.window_ms - (now - reqs.headD 0)) 1000) ++
                    " seconds.",
                httpStatus := none },
       reqs) := by
  simp only [checkLimit]
  rw [checkLimit_filter_self config reqs now hkeep, if_pos hlen]

/-- `checkLimit` admits after the window has fully elapsed: everything prunes. -/
theorem checkLimit_after_window (config : RateLimitConfig) (reqs : List Int) (now : Int)
    (hdrop : ∀ y ∈ reqs, y ≤ now - config.window_ms)
    (hpos : 0 < config.requests_per_minute) :
    checkLimit config reqs now = (.ok (), [now]) := by
  simp only [checkLimit]
  have hnil : (reqs.filter fun time => decide (now - config.window_ms < time)) = [] := by
    simp only [List.filter_eq_nil_iff, decide_eq_true_eq]
    intro y hy
    have := hdrop y hy
    omega
  rw [hnil, if_neg (by simp; omega)]
  simp

/-! ## Claims -/

/-- Claim C5: once `authenticate()` has succeeded and until `invalidateAuth()`
is called, `isAuthenticated()` returns true at every later time — also after
the 5-minute freshness window has elapsed; mere passage of time never makes it
false, and after `invalidateAuth()` it is false. -/
theorem claim_C5 (config : WordPressConfig) (tAuth now later : Int)
    (s : AuthManagerState) :
    (s.authState.isAuthenticated = true → isAuthenticated s now = true) ∧
    isAuthenticated (authenticate config tAuth) now = true ∧
    isAuthenticated (invalidateAuth s) later = false := by
  refine ⟨fun h => ?_, ?_, ?_⟩
  · simp [isAuthenticated, h]
  · simp [isAuthenticated, authenticate]
  · simp [isAuthenticated, invalidateAuth]

/-- Witness for C5: concrete states, with the query time far past the 5-minute
freshness window of the `lastAuthCheck` at 0. -/
theorem claim_C5_witness :
    isAuthenticated ⟨⟨true, some 0, none⟩, some 0⟩ 999999999 = true ∧
    isAuthenticated (authenticate cfgW 0) 999999999 = true ∧
    isAuthenticated (invalidateAuth ⟨⟨true, some 0, none⟩, some 0⟩) 123 = false :=
  ⟨(claim_C5 cfgW 0 999999999 123 ⟨⟨true, some 0, none⟩, some 0⟩).1 rfl,
   (claim_C5 cfgW 0 999999999 123 ⟨⟨true, some 0, none⟩, some 0⟩).2.1,
   (claim_C5 cfgW 0 999999999 123 ⟨⟨true, some 0, none⟩, some 0⟩).2.2⟩

/-- Claim C8: after every completed `checkLimit()` call, admitting or
rejecting, the stored timestamp list holds nothing older than one window
width before the current time. -/
theorem claim_C8 (config : RateLimitConfig) (requests : List Int) (now : Int)
    (hw : 0 < config.window_ms) :
    ∀ t ∈ (checkLimit config requests now).2, now - config.window_ms < t := by
  intro t ht
  simp only [checkLimit] at ht
  split at ht
  · simp only [List.mem_filter, decide_eq_true_eq] at ht
    exact ht.2
  · simp only [List.mem_append, List.mem_filter, List.mem_singleton,
      decide_eq_true_eq] at ht
    rcases ht with ⟨_, h⟩ | rfl
    · exact h
    · omega

/-- Witness for C8: a concrete admitted check with a positive window. -/
theorem claim_C8_witness :
    (0 : Int) < 60000 ∧
    ∀ t ∈ (checkLimit ⟨2, 60000⟩ [500] 600).2, (600 : Int) - 60000 < t :=
  ⟨by decide, claim_C8 ⟨2, 60000⟩ [500] 600 (by decide)⟩

/-- Claim C10: when `checkLimit()` rejects, the stored list is exactly the
pruned list — the current timestamp is not appended — so the timestamps after
a rejected check are a sublist (hence a subset) of those before it. -/
theorem claim_C10 (config : RateLimitConfig) (requests : List Int) (now : Int)
    (e : WordPressAuthError)
    (hrej : (checkLimit config requests now).1 = .error e) :
    (checkLimit config requests now).2
        = (requests.filter fun time => decide (now - config.window_ms < time)) ∧
    List.Sublist (checkLimit config requests now).2 requests ∧
    ∀ t ∈ (checkLimit config requests now).2, t ∈ requests := by
  have hsplit :
      (checkLimit config requests now).2
        = (requests.filter fun time => decide (now - config.window_ms < time)) := by
    simp only [checkLimit] at hrej ⊢
    split at hrej
    · simp_all
    · simp_all
  refine ⟨hsplit, ?_, ?_⟩
  · rw [hsplit]; exact List.filter_sublist _
  · rw [hsplit]; intro t ht; exact (List.filter_sublist _).subset ht

/-- Witness for C10: a concrete rejected check (limit 1, second request inside
the window). -/
theorem claim_C10_witness :
    (checkLimit ⟨1, 60000⟩ [500] 600).2
        = ([500].filter fun time => decide ((600 : Int) - 60000 < time)) ∧
    List.Sublist (checkLimit ⟨1, 60000⟩ [500] 600).2 [500] ∧
    ∀ t ∈ (checkLimit ⟨1, 60000⟩ [500] 600).2, t ∈ [(500 : Int)] :=
  claim_C10 ⟨1, 60000⟩ [500] 600
    ⟨.RATE_LIMITED, "Rate limit exceeded. Please wait 60 seconds.", none⟩ (by decide)

/-- Characterization of `isValidApplicationPassword`: the whitespace-stripped
character list has length 24 and every character is ASCII alphanumeric. -/
theorem isValidApplicationPassword_iff (password : String) :
    isValidApplicationPassword password = true ↔
      ((password.toList.filter fun c => !(isJsWhitespace c)).length = 24 ∧
       ∀ c ∈ password.toList.filter fun c => !(isJsWhitespace c),
         isAsciiAlphanumeric c = true) := by
  simp only [isValidApplicationPassword, Bool.and_eq_true, beq_iff_eq,
    Bool.not_eq_true', List.all_eq_true]
  constructor
  · rintro ⟨h24, _, hall⟩
    exact ⟨h24, hall⟩
  · rintro ⟨h24, hall⟩
    refine ⟨h24, ?_, hall⟩
    rw [List.isEmpty_eq_false_iff_exists_mem]
    rcases List.exists_mem_of_length_pos (by omega :
        0 < (password.toList.filter fun c => !(isJsWhitespace c)).length) with ⟨c, hc⟩
    exact ⟨c, hc⟩

/-- Claim C6: with an otherwise valid (absolute HTTPS) site URL, configuration
validation rejects exactly the application passwords whose whitespace-stripped
form does not consist of 24 alphanumeric characters, throwing
`INVALID_CREDENTIALS`; a 24-character alphanumeric password (whitespace
allowed) passes. -/
theorem claim_C6 (config : WordPressConfig) (url : Url)
    (hproto : url.protocol = "https:") :
    (((config.app_password.toList.filter fun c => !(isJsWhitespace c)).length ≠ 24 ∨
      ∃ c ∈ config.app_password.toList.filter fun c => !(isJsWhitespace c),
        isAsciiAlphanumeric c = false) →
      validateConfiguration config (some url) =
        .error { type := .INVALID_CREDENTIALS,
                 message := "Application password format is invalid. Should be in format: xxxx xxxx xxxx xxxx xxxx xxxx",
                 httpStatus := none }) ∧
    (((config.app_password.toList.filter fun c => !(isJsWhitespace c)).length = 24 ∧
      ∀ c ∈ config.app_password.toList.filter fun c => !(isJsWhitespace c),
        isAsciiAlphanumeric c = true) →
      validateConfiguration config (some url) = .ok ()) := by
  have hsec : (validateSecurity config (some url)).isSecure = true := by
    simp [validateSecurity, hproto]
  constructor
  · intro hbad
    have hinvalid : isValidApplicationPassword config.app_password = false := by
      rw [← Bool.not_eq_true, isValidApplicationPassword_iff]
      rintro ⟨h24, hall⟩
      rcases hbad with h | ⟨c, hc, hcbad⟩
      · exact h h24
      · rw [hall c hc] at hcbad; cases hcbad
    simp [validateConfiguration, hsec, hproto, hinvalid]
  · intro hgood
    have hvalid : isValidApplicationPassword config.app_password = true :=
      (isValidApplicationPassword_iff config.app_password).mpr hgood
    simp [validateConfiguration, hsec, hproto, hvalid]

/-- Witness for C6: `cfgW`, whose password is 24 alphanumeric characters,
passes; the same configuration with a short password is rejected with
`INVALID_CREDENTIALS`. -/
theorem claim_C6_witness :
    validateConfiguration { cfgW with app_password := "tooshort" }
        (some ⟨"https:", "example.com"⟩) =
      .error { type := .INVALID_CREDENTIALS,
               message := "Application password format is invalid. Should be in format: xxxx xxxx xxxx xxxx xxxx xxxx",
               httpStatus := none } ∧
    validateConfiguration cfgW (some ⟨"https:", "example.com"⟩) = .ok () :=
  ⟨(claim_C6 { cfgW with app_password := "tooshort" } ⟨"https:", "example.com"⟩
      rfl).1 (by decide),
   (claim_C6 cfgW ⟨"https:", "example.com"⟩ rfl).2 (by decide)⟩

/-- Claim C7: for every configuration whose site URL does not parse as an
absolute URL with the HTTPS protocol, `validateSecurity()` reports
`isSecure = false` with at least one issue, and construction (configuration
validation) throws an `INVALID_URL` error instead of producing an instance. -/
theorem claim_C7 (config : WordPressConfig) (parsedUrl : Option Url)
    (hbad : ∀ u, parsedUrl = some u → u.protocol ≠ "https:") :
    (validateSecurity config parsedUrl).isSecure = false ∧
    (validateSecurity config parsedUrl).issues ≠ [] ∧
    ∃ msg, validateConfiguration config parsedUrl =
      .error { type := .INVALID_URL, message := msg, httpStatus := none } := by
  cases parsedUrl with
  | none =>
    refine ⟨by simp [validateSecurity], by simp [validateSecurity], ?_⟩
    exact ⟨"Security validation failed: " ++
        String.intercalate ", " ["Invalid site URL format"],
      by simp [validateConfiguration, validateSecurity]⟩
  | some u =>
    have h := hbad u rfl
    refine ⟨by simp [validateSecurity, h], by simp [validateSecurity, h], ?_⟩
    exact ⟨"Security validation failed: " ++
        String.intercalate ", " ["Site URL must use HTTPS"],
      by simp [validateConfiguration, validateSecurity, h]⟩

/-- Witness for C7: the spec scenario `http://example.com` (parses, but with
protocol `http:`). -/
theorem claim_C7_witness :
    (validateSecurity { cfgW with site_url := "http://example.com" }
        (some ⟨"http:", "example.com"⟩)).isSecure = false ∧
    (validateSecurity { cfgW with site_url := "http://example.com" }
        (some ⟨"http:", "example.com"⟩)).issues ≠ [] ∧
    ∃ msg, validateConfiguration { cfgW with site_url := "http://example.com" }
        (some ⟨"http:", "example.com"⟩) =
      .error { type := .INVALID_URL, message := msg, httpStatus := none } :=
  claim_C7 { cfgW with site_url := "http://example.com" }
    (some ⟨"http:", "example.com"⟩)
    (fun u hu => by cases hu; decide)

/-- Claim C2: from a fresh client (`retryCount = 0`), a 401 triggers exactly
one automatic retry (invalidate auth, re-authenticate, resubmit): a 401
followed by a 200 yields the successful response with exactly one retry
performed (and the counter reset by the success); two consecutive 401s yield
`UNAUTHORIZED` with no further retry (the retries counter shows only the one
resubmission). -/
theorem claim_C2 (config : WordPressConfig) (now : Int) (auth : AuthManagerState)
    (retries s : Nat) (e1 e2 : ResponseErrorInput)
    (rest1 rest2 : List ScriptedResponse)
    (h1 : e1.status = some 401) (h2 : e2.status = some 401) :
    processResponses config now ⟨0, auth⟩ retries
        (.failure e1 :: .success s :: rest1) =
      (.ok s, ⟨0, authenticate config now⟩, retries + 1) ∧
    processResponses config now ⟨0, auth⟩ retries
        (.failure e1 :: .failure e2 :: rest2) =
      (.error { type := .UNAUTHORIZED,
                message := "Invalid credentials or expired authentication",
                httpStatus := some 401 },
       ⟨1, invalidateAuth (authenticate config now)⟩, retries + 1) := by
  constructor
  · simp [processResponses, h1]
  · simp [processResponses, h1, h2]

/-- Witness for C2: concrete 401/200 and 401/401 scripts. -/
theorem claim_C2_witness :
    processResponses cfgW 0 ⟨0, authenticate cfgW 0⟩ 0
        [.failure resp401, .success 200] =
      (.ok 200, ⟨0, authenticate cfgW 0⟩, 1) ∧
    processResponses cfgW 0 ⟨0, authenticate cfgW 0⟩ 0
        [.failure resp401, .failure resp401] =
      (.error { type := .UNAUTHORIZED,
                message := "Invalid credentials or expired authentication",
                httpStatus := some 401 },
       ⟨1, invalidateAuth (authenticate cfgW 0)⟩, 1) :=
  claim_C2 cfgW 0 (authenticate cfgW 0) 0 200 resp401 resp401 [] [] rfl rfl

/-- Unfolding: a successful response resets the retry counter. -/
theorem processResponses_success (config : WordPressConfig) (now : Int)
    (st : ClientState) (retries s : Nat) (rest : List ScriptedResponse) :
    processResponses config now st retries (.success s :: rest) =
      (.ok s, ⟨0, st.auth⟩, retries) := by
  simp [processResponses]

/-- Unfolding: a 401 with the retry counter at 0 re-authenticates and
resubmits, incrementing both the counter and the retries tally. -/
theorem processResponses_401_retry (config : WordPressConfig) (now : Int)
    (st : ClientState) (retries : Nat) (e : ResponseErrorInput)
    (rest : List ScriptedResponse)
    (h401 : e.status = some 401) (hrc : st.retryCount < 1) :
    processResponses config now st retries (.failure e :: rest) =
      processResponses config now ⟨st.retryCount + 1, authenticate config now⟩
        (retries + 1) rest := by
  simp [processResponses, h401, hrc]

/-- Unfolding: a 401 with the retry counter already positive surfaces
`UNAUTHORIZED` at once, after invalidating the authentication state. -/
theorem processResponses_401_noRetry (config : WordPressConfig) (now : Int)
    (st : ClientState) (retries : Nat) (e : ResponseErrorInput)
    (rest : List ScriptedResponse)
    (h401 : e.status = some 401) (hrc : 1 ≤ st.retryCount) :
    processResponses config now st retries (.failure e :: rest) =
      (.error { type := .UNAUTHORIZED,
                message := "Invalid credentials or expired authentication",
                httpStatus := some 401 },
       ⟨st.retryCount, invalidateAuth st.auth⟩, retries) := by
  have hnlt : ¬ (st.retryCount < 1) := by omega
  simp [processResponses, h401, hnlt]

/-- Unfolding: a non-401 rejection is classified and surfaced unchanged. -/
theorem processResponses_non401 (config : WordPressConfig) (now : Int)
    (st : ClientState) (retries : Nat) (e : ResponseErrorInput)
    (rest : List ScriptedResponse) (h401 : e.status ≠ some 401) :
    processResponses config now st retries (.failure e :: rest) =
      (.error (classifyNon401 e config), st, retries) := by
  simp [processResponses, h401]

/-- In a response script with no success, `processResponses` never resets the
retry counter: a positive counter blocks any further resubmission, the tally
grows by at most one, the counter never decreases, and a resubmission leaves
the counter positive. -/
theorem processResponses_noSuccess (config : WordPressConfig) (now : Int) :
    ∀ (script : List ScriptedResponse) (st : ClientState) (retries : Nat),
      (∀ r ∈ script, isSuccessResp r = false) →
      (1 ≤ st.retryCount →
        (processResponses config now st retries script).2.2 = retries) ∧
      (processResponses config now st retries script).2.2 ≤ retries + 1 ∧
      retries ≤ (processResponses config now st retries script).2.2 ∧
      st.retryCount ≤ (processResponses config now st retries script).2.1.retryCount ∧
      ((processResponses config now st retries script).2.2 = retries + 1 →
        1 ≤ (processResponses config now st retries script).2.1.retryCount) := by
  intro script
  induction script with
  | nil => intro st retries _; simp [processResponses]
  | cons r rest ih =>
    intro st retries hns
    cases r with
    | success s =>
      have := hns (.success s) (by simp)
      simp [isSuccessResp] at this
    | failure e =>
      by_cases h401 : e.status = some 401
      · by_cases hrc : st.retryCount < 1
        · have hrest := ih ⟨st.retryCount + 1, authenticate config now⟩
            (retries + 1) (fun r hr => hns r (by simp [hr]))
          rw [processResponses_401_retry config now st retries e rest h401 hrc]
          simp only [ClientState.mk.injEq] at hrest ⊢
          omega
        · rw [processResponses_401_noRetry config now st retries e rest h401
            (by omega)]
          simp
      · rw [processResponses_non401 config now st retries e rest h401]
        simp

/-- Sequential composition of `processResponses_noSuccess` over a list of
requests: with no intervening success the retries tally grows by at most one
in total, and the counter stays monotone. -/
theorem runRequests_noSuccess (config : WordPressConfig) (now : Int) :
    ∀ (scripts : List (List ScriptedResponse)) (st : ClientState) (retries : Nat),
      (∀ sc ∈ scripts, ∀ r ∈ sc, isSuccessResp r = false) →
      (1 ≤ st.retryCount →
        (runRequests config now st retries scripts).2.2 = retries) ∧
      (runRequests config now st retries scripts).2.2 ≤ retries + 1 ∧
      retries ≤ (runRequests config now st retries scripts).2.2 ∧
      st.retryCount ≤ (runRequests config now st retries scripts).2.1.retryCount ∧
      ((runRequests config now st retries scripts).2.2 = retries + 1 →
        1 ≤ (runRequests config now st retries scripts).2.1.retryCount) := by
  intro scripts
  induction scripts with
  | nil => intro st retries _; simp [runRequests]
  | cons sc more ih =>
    intro st retries hns
    have h1 := processResponses_noSuccess config now sc st retries
      (hns sc (by simp))
    have h2 := ih (processResponses config now st retries sc).2.1
      (processResponses config now st retries sc).2.2
      (fun sc2 hsc2 => hns sc2 (by simp [hsc2]))
    simp only [runRequests]
    omega

/-- Claim C9: the 401-retry counter is per-client, incremented on a 401 retry
and reset to zero only by a successful response.  Consequently (a) a success
resets the counter; (b) a 401 arriving while the counter is already positive
— e.g. on a later independent request with no intervening success — is
surfaced immediately as `UNAUTHORIZED` with no resubmission; (c) across any
sequence of requests with no successful response, at most one retry is
performed in total. -/
theorem claim_C9 (config : WordPressConfig) (now : Int) :
    (∀ (st : ClientState) (retries s : Nat) (rest : List ScriptedResponse),
      processResponses config now st retries (.success s :: rest) =
        (.ok s, ⟨0, st.auth⟩, retries)) ∧
    (∀ (st : ClientState) (retries : Nat) (e : ResponseErrorInput)
        (rest : List ScriptedResponse),
      1 ≤ st.retryCount → e.status = some 401 →
      processResponses config now st retries (.failure e :: rest) =
        (.error { type := .UNAUTHORIZED,
                  message := "Invalid credentials or expired authentication",
                  httpStatus := some 401 },
         ⟨st.retryCount, invalidateAuth st.auth⟩, retries)) ∧
    (∀ (scripts : List (List ScriptedResponse)) (st : ClientState) (retries : Nat),
      (∀ sc ∈ scripts, ∀ r ∈ sc, isSuccessResp r = false) →
      (runRequests config now st retries scripts).2.2 ≤ retries + 1) := by
  refine ⟨?_, ?_, ?_⟩
  · intro st retries s rest
    exact processResponses_success config now st retries s rest
  · intro st retries e rest hrc h401
    exact processResponses_401_noRetry config now st retries e rest h401 hrc
  · intro scripts st retries hns
    exact (runRequests_noSuccess config now scripts st retries hns).2.1

/-- Witness for C9: a client that already consumed its retry (counter 1)
surfaces a fresh 401 immediately; over two success-free requests the total
number of retries performed from a fresh client is 1. -/
theorem claim_C9_witness :
    processResponses cfgW 0 ⟨1, authenticate cfgW 0⟩ 1 [.failure resp401] =
      (.error { type := .UNAUTHORIZED,
                message := "Invalid credentials or expired authentication",
                httpStatus := some 401 },
       ⟨1, invalidateAuth (authenticate cfgW 0)⟩, 1) ∧
    (runRequests cfgW 0 ⟨0, authenticate cfgW 0⟩ 0
        [[.failure resp401, .failure resp401], [.failure resp401]]).2.2 ≤ 0 + 1 :=
  ⟨(claim_C9 cfgW 0).2.1 ⟨1, authenticate cfgW 0⟩ 1 resp401 [] (by decide) rfl,
   (claim_C9 cfgW 0).2.2 [[.failure resp401, .failure resp401], [.failure resp401]]
     ⟨0, authenticate cfgW 0⟩ 0 (by decide)⟩

/-- Running checks at times that all lie within one window of each other and
of everything already stored, while staying under the limit, admits every
check and appends the times in order. -/
theorem runChecks_admits (config : RateLimitConfig) :
    ∀ (ts prev : List Int),
      prev.length + ts.length ≤ config.requests_per_minute →
      (∀ x ∈ ts, ∀ y ∈ prev, x - y < config.window_ms) →
      (∀ x ∈ ts, ∀ y ∈ ts, x - y < config.window_ms) →
      runChecks config prev ts = (prev ++ ts, true) := by
  intro ts
  induction ts with
  | nil => intro prev _ _ _; simp [runChecks]
  | cons t ts ih =>
    intro prev hlen hprev hself
    have hstep : checkLimit config prev t = (.ok (), prev ++ [t]) := by
      refine checkLimit_admit config prev t ?_ ?_
      · intro y hy
        have := hprev t (by simp) y hy
        omega
      · simp at hlen; omega
    have hrest : runChecks config (prev ++ [t]) ts = ((prev ++ [t]) ++ ts, true) := by
      refine ih (prev ++ [t]) ?_ ?_ ?_
      · simp at hlen ⊢; omega
      · intro x hx y hy
        rcases List.mem_append.mp hy with hy | hy
        · exact hprev x (by simp [hx]) y hy
        · rcases List.mem_singleton.mp hy with rfl
          exact hself x (by simp [hx]) y (by simp)
      · intro x hx y hy
        exact hself x (by simp [hx]) y (by simp [hy])
    simp only [runChecks, hstep, hrest]
    simp

/-- Claim C4: with limit `N` per window, `N` admission checks at times lying
within one window all succeed; an `(N+1)`-th check still inside that window
fails with a `RATE_LIMITED` message stating exactly
`ceil((window_end - now) / 1000)` seconds, where `window_end` is the oldest
recorded time plus the window width; and a check performed after the window
has fully elapsed since those `N` requests succeeds again. -/
theorem claim_C4 (config : RateLimitConfig) (ts : List Int) (t tLater : Int)
    (hN : ts.length = config.requests_per_minute)
    (hpos : 0 < config.requests_per_minute)
    (hwin : ∀ x ∈ ts, ∀ y ∈ ts, x - y < config.window_ms)
    (ht : ∀ y ∈ ts, t - y < config.window_ms)
    (htL : ∀ y ∈ ts, y ≤ tLater - config.window_ms) :
    runChecks config [] ts = (ts, true) ∧
    (checkLimit config ts t).1 = .error
      { type := .RATE_LIMITED,
        message := "Rate limit exceeded. Please wait " ++
            toString (mathCeil (ts.headD 0 + config.window_ms - t) 1000) ++
            " seconds.",
        httpStatus := none } ∧
    checkLimit config ts tLater = (.ok (), [tLater]) := by
  refine ⟨?_, ?_, ?_⟩
  · have := runChecks_admits config ts [] (by simp; omega) (by simp) hwin
    simpa using this
  · have hrej := checkLimit_reject config ts t
      (fun y hy => by have := ht y hy; omega) (by omega)
    rw [hrej]
    have harg : config.window_ms - (t - ts.headD 0)
        = ts.headD 0 + config.window_ms - t := by omega
    rw [harg]
  · exact checkLimit_after_window config ts tLater htL hpos

/-- Witness for C4: limit 2, window 60000 ms; checks at 0 and 1000 admit, a
third at 2000 is rejected telling the caller to wait
`ceil((0 + 60000 - 2000) / 1000) = 58` seconds, and a check at 61000 (one
full window past the oldest and the newest entry) admits again. -/
theorem claim_C4_witness :
    runChecks ⟨2, 60000⟩ [] [0, 1000] = ([0, 1000], true) ∧
    (checkLimit ⟨2, 60000⟩ [0, 1000] 2000).1 = .error
      { type := .RATE_LIMITED,
        message := "Rate limit exceeded. Please wait " ++
            toString (mathCeil ((0 : Int) + 60000 - 2000) 1000) ++ " seconds.",
        httpStatus := none } ∧
    checkLimit ⟨2, 60000⟩ [0, 1000] 61000 = (.ok (), [61000]) := by
  have h := claim_C4 ⟨2, 60000⟩ [0, 1000] 2000 61000 (by decide) (by decide)
    (by decide) (by decide) (by decide)
  simpa using h

/-- Counterexample to claim C1: the 403 branch of `handleResponseError` embeds
the WordPress-provided `data.message` verbatim, so with a server message that
echoes the configured password the returned error message contains the literal
password, and applying `sanitizeErrorMessage` to it would change it — the
message was not passed through sanitization. -/
theorem claim_C1_counterexample :
    List.IsInfix cfgW.app_password.toList
      (classifyNon401 leak403 cfgW).message.toList ∧
    sanitizeErrorMessage cfgW (classifyNon401 leak403 cfgW).message
      ≠ (classifyNon401 leak403 cfgW).message := by
  constructor
  · decide
  · decide

/-- Claim C1 (amended): only the final uncategorized fallthrough of
`handleResponseError` passes the error message through
`sanitizeErrorMessage`; the 403 branch (like the ≥500 and other-4xx branches)
returns the WordPress-provided message verbatim, which may contain the
configured password.  `sanitizeErrorMessage` itself replaces the configured
username, the configured password and any `Basic <token>` pattern with
redaction placeholders, case-insensitively. -/
theorem claim_C1 :
    (∀ (config : WordPressConfig) (e : ResponseErrorInput) (m : String),
      e.status = some 403 → e.dataMessage = some m → m ≠ "" →
      classifyNon401 e config =
        { type := .FORBIDDEN, message := m, httpStatus := some 403 }) ∧
    (∀ (config : WordPressConfig) (e : ResponseErrorInput),
      e.status = none → e.code = none →
      classifyNon401 e config =
        { type := .UNKNOWN_ERROR,
          message := sanitizeErrorMessage config e.errorMessage,
          httpStatus := none }) ∧
    sanitizeErrorMessage cfgW
        "Login admin with abcdABCD1234abcdABCD1234 and Basic QWxhZGRpbjpvcGVuc2VzYW1l failed"
      = "Login [USERNAME] with [PASSWORD] and Basic [CREDENTIALS] failed" := by
  refine ⟨?_, ?_, by decide⟩
  · intro config e m h403 hdm hm
    simp [classifyNon401, h403, orDefault, hdm, hm]
  · intro config e hst hcode
    simp [classifyNon401, hst, hcode, statusTruthy]

/-- Witness for C1 (amended): the 403 branch returns the leaking message
verbatim; a codeless, statusless transport error goes through sanitization. -/
theorem claim_C1_witness :
    classifyNon401 leak403 cfgW =
      { type := .FORBIDDEN,
        message := "User admin: password abcdABCD1234abcdABCD1234 rejected",
        httpStatus := some 403 } ∧
    classifyNon401 ⟨none, none, none, "socket closed by admin"⟩ cfgW =
      { type := .UNKNOWN_ERROR,
        message := sanitizeErrorMessage cfgW "socket closed by admin",
        httpStatus := none } :=
  ⟨claim_C1.1 cfgW leak403
      "User admin: password abcdABCD1234abcdABCD1234 rejected" rfl rfl (by decide),
   claim_C1.2.1 cfgW ⟨none, none, none, "socket closed by admin"⟩ rfl rfl⟩

/-- Counterexample to claim C3: the error enum has no `NOT_FOUND` member, and
a 404 response is not given a dedicated classification — it falls into the
generic 4xx branch and surfaces as `UNKNOWN_ERROR`, the same category as any
other unlisted 4xx status such as 418. -/
theorem claim_C3_counterexample :
    classifyNon401 resp404 cfgW =
      { type := .UNKNOWN_ERROR,
        message := "WordPress API error (404): Not Found",
        httpStatus := some 404 } ∧
    (classifyNon401 resp404 cfgW).type = (classifyNon401 resp418 cfgW).type := by
  constructor
  · decide
  · decide

/-- Claim C3 (amended): every non-2xx response or transport failure handled
without retry is classified into one of `FORBIDDEN`, `RATE_LIMITED`,
`TIMEOUT`, `SSL_ERROR`, `NETWORK_ERROR`, `UNKNOWN_ERROR` (the enum has no
`NOT_FOUND` member); a 403 surfaces as `FORBIDDEN`, a remote 429 as
`RATE_LIMITED` with no retry attempted, a 404 as `UNKNOWN_ERROR` carrying the
WordPress-provided message, any status ≥ 500 as `NETWORK_ERROR` carrying the
status code, and any other 4xx (not 401/403/429) as `UNKNOWN_ERROR` carrying
the WordPress-provided message. -/
theorem claim_C3 :
    (∀ (config : WordPressConfig) (e : ResponseErrorInput),
      (classifyNon401 e config).type ∈
        [AuthErrorType.FORBIDDEN, .RATE_LIMITED, .TIMEOUT, .SSL_ERROR,
         .NETWORK_ERROR, .UNKNOWN_ERROR]) ∧
    (∀ (config : WordPressConfig) (e : ResponseErrorInput),
      e.status = some 403 → (classifyNon401 e config).type = .FORBIDDEN) ∧
    (∀ (config : WordPressConfig) (now : Int) (st : ClientState) (retries : Nat)
        (e : ResponseErrorInput) (rest : List ScriptedResponse),
      e.status = some 429 →
      processResponses config now st retries (.failure e :: rest) =
        (.error { type := .RATE_LIMITED,
                  message := "Rate limit exceeded by WordPress server",
                  httpStatus := some 429 },
         st, retries)) ∧
    (∀ (config : WordPressConfig) (e : ResponseErrorInput),
      e.status = some 404 → e.code = none →
      classifyNon401 e config =
        { type := .UNKNOWN_ERROR,
          message := "WordPress API error (" ++ toString (404 : Nat) ++ "): " ++
              orDefault e.dataMessage "Bad request",
          httpStatus := some 404 }) ∧
    (∀ (config : WordPressConfig) (e : ResponseErrorInput) (s : Nat),
      e.status = some s → e.code = none → 500 ≤ s →
      classifyNon401 e config =
        { type := .NETWORK_ERROR,
          message := "WordPress server error (" ++ toString s ++ "): " ++
              orDefault e.dataMessage "Internal server error",
          httpStatus := some s }) ∧
    (∀ (config : WordPressConfig) (e : ResponseErrorInput) (s : Nat),
      e.status = some s → e.code = none →
      400 ≤ s → s < 500 → s ≠ 401 → s ≠ 403 → s ≠ 429 →
      classifyNon401 e config =
        { type := .UNKNOWN_ERROR,
          message := "WordPress API error (" ++ toString s ++ "): " ++
              orDefault e.dataMessage "Bad request",
          httpStatus := some s }) := by
  refine ⟨?_, ?_, ?_, ?_, ?_, ?_⟩
  · intro config e
    simp only [classifyNon401]
    repeat' split
    all_goals simp
  · intro config e h403
    simp [classifyNon401, h403]
  · intro config now st retries e rest h429
    have hne : e.status ≠ some 401 := by rw [h429]; simp
    rw [processResponses_non401 config now st retries e rest hne]
    simp [classifyNon401, h429]
  · intro config e h404 hcode
    simp [classifyNon401, h404, hcode, statusTruthy]
  · intro config e s hst hcode h500
    have h403 : ¬ ((some s : Option Nat) = some 403) := by simp; omega
    have h429 : ¬ ((some s : Option Nat) = some 429) := by simp; omega
    have hs0 : s ≠ 0 := by omega
    simp [classifyNon401, hst, hcode, statusTruthy, h403, h429, hs0, h500]
  · intro config e s hst hcode h400 h500 h401 h403 h429
    have h403s : ¬ ((some s : Option Nat) = some 403) := by simp; omega
    have h429s : ¬ ((some s : Option Nat) = some 429) := by simp; omega
    have hs0 : s ≠ 0 := by omega
    have hn500 : ¬ (500 ≤ s) := by omega
    simp [classifyNon401, hst, hcode, statusTruthy, h403s, h429s, hs0, hn500, h400]

/-- Witness for C3 (amended): concrete classifications — 403, 429 through the
retry loop, 404, 502, and 418. -/
theorem claim_C3_witness :
    (classifyNon401 resp404 cfgW).type ∈
      [AuthErrorType.FORBIDDEN, .RATE_LIMITED, .TIMEOUT, .SSL_ERROR,
       .NETWORK_ERROR, .UNKNOWN_ERROR] ∧
    (classifyNon401 leak403 cfgW).type = .FORBIDDEN ∧
    processResponses cfgW 0 ⟨0, authenticate cfgW 0⟩ 0 [.failure resp429] =
      (.error { type := .RATE_LIMITED,
                message := "Rate limit exceeded by WordPress server",
                httpStatus := some 429 },
       ⟨0, authenticate cfgW 0⟩, 0) ∧
    classifyNon401 resp404 cfgW =
      { type := .UNKNOWN_ERROR,
        message := "WordPress API error (" ++ toString (404 : Nat) ++ "): " ++
            orDefault resp404.dataMessage "Bad request",
        httpStatus := some 404 } ∧
    classifyNon401 ⟨some 502, none, none, ""⟩ cfgW =
      { type := .NETWORK_ERROR,
        message := "WordPress server error (" ++ toString (502 : Nat) ++ "): " ++
            orDefault (none : Option String) "Internal server error",
        httpStatus := some 502 } ∧
    classifyNon401 resp418 cfgW =
      { type := .UNKNOWN_ERROR,
        message := "WordPress API error (" ++ toString (418 : Nat) ++ "): " ++
            orDefault resp418.dataMessage "Bad request",
        httpStatus := some 418 } :=
  ⟨claim_C3.1 cfgW resp404,
   claim_C3.2.1 cfgW leak403 rfl,
   claim_C3.2.2.1 cfgW 0 ⟨0, authenticate cfgW 0⟩ 0 resp429 [] rfl,
   claim_C3.2.2.2.1 cfgW resp404 rfl rfl,
   claim_C3.2.2.2.2.1 cfgW ⟨some 502, none, none, ""⟩ 502 rfl rfl (by decide),
   claim_C3.2.2.2.2.2 cfgW resp418 418 rfl rfl (by decide) (by decide)
     (by decide) (by decide) (by decide)⟩

end WpMcp
